import Mathlib

/-!
Shallow embedding of the client-side state-synchronization layer of the
AI Role Matcher frontend (AppContext.jsx, App.jsx, RoleManagement.jsx,
OfferRecommendation.jsx, services/api.js), together with theorems about
its bootstrap, fallback mode, offer mutations and error classification.

Conventions of the embedding:
- JavaScript arrays become `List`, objects become structures, absent
  (`undefined`) fields become `Option`, numbers that the code treats as
  integers (salaries, scores) become `Nat`.
- A rejected promise / thrown error becomes `Except FetchErr`.
- React `useState` semantics are made explicit where they matter: a
  `set` call with a plain value replaces the pending state, a `set`
  call with an updater function is applied to the pending state, and a
  read of the state variable inside an effect closure sees the value
  from the render in which the closure was created, not the pending
  value.
-/

namespace RoleMatcher

/-- Error object produced by a failed service call; the response
interceptor attaches `userMessage` before re-rejecting (it is always
present for errors that went through the interceptor, but the consumer
guards with `if (err.userMessage)`, so we keep it optional). -/
structure FetchErr where
  userMessage : Option String
  deriving Repr, DecidableEq

/-- Result of an awaited service call: either the parsed JSON payload
or a thrown `FetchErr`. -/
abbrev FetchResult (α : Type) := Except FetchErr (List α)

/-- Candidate entity as stored in the shared state store. -/
structure Candidate where
  _id : String
  name : String
  email : String
  skills : List String
  experience : String
  deriving Repr, DecidableEq

/-- Salary range of a role. -/
structure SalaryRange where
  min : Nat
  max : Nat
  deriving Repr, DecidableEq

/-- Role entity as stored in the shared state store; optional text
fields default to the empty string the way the form layer does. -/
structure Role where
  _id : String
  title : String
  department : String := ""
  description : String := ""
  required_skills : List String := []
  preferred_skills : List String := []
  experience_required : String := ""
  education_required : String := ""
  location : String := ""
  remote_option : String := ""
  salary_range : SalaryRange := ⟨0, 0⟩
  is_active : Bool := true
  deriving Repr, DecidableEq

/-- Match entity as stored in the shared state store. -/
structure Match where
  _id : String
  candidate_id : String
  role_id : String
  match_score : Nat
  status : String
  deriving Repr, DecidableEq

/-- Nested offer package of an Offer. `bonus` is optional because the
edit dialog reads it as `editedOffer.bonus || 0`. -/
structure OfferPackage where
  base_salary : Nat
  bonus : Option Nat := none
  equity : String := ""
  total_ctc : Nat
  start_date : Option String := none
  remote : Option String := none
  benefits : List String := []
  deriving Repr, DecidableEq

/-- Offer entity as stored in the shared state store. -/
structure Offer where
  _id : String
  candidate_id : String
  role_id : String
  match_score : Nat
  status : String
  offer : OfferPackage
  deriving Repr, DecidableEq

/-- The four fixed mock collections of the fallback dataset provider
(`mockData` in AppContext.jsx). -/
def mockCandidates : List Candidate :=
  [ { _id := "mock1", name := "Alex Johnson", email := "alex@example.com",
      skills := ["React", "Node.js"], experience := "5 years" },
    { _id := "mock2", name := "Maria Garcia", email := "maria@example.com",
      skills := ["Python", "Data Science"], experience := "3 years" } ]

/-- Mock roles of the fallback dataset. -/
def mockRoles : List Role :=
  [ { _id := "mock1", title := "Frontend Developer", department := "Engineering",
      required_skills := ["JavaScript", "React"], is_active := true },
    { _id := "mock2", title := "Data Scientist", department := "Analytics",
      required_skills := ["Python", "Machine Learning"], is_active := true } ]

/-- Mock matches of the fallback dataset. -/
def mockMatches : List Match :=
  [ { _id := "mock1", candidate_id := "mock1", role_id := "mock1",
      match_score := 85, status := "Matched" },
    { _id := "mock2", candidate_id := "mock2", role_id := "mock2",
      match_score := 92, status := "Matched" } ]

/-- Mock offers of the fallback dataset. -/
def mockOffers : List Offer :=
  [ { _id := "mock1", candidate_id := "mock1", role_id := "mock1",
      match_score := 85, status := "Pending Approval",
      offer := { base_salary := 100000, bonus := some 10000,
                 equity := "1%", total_ctc := 110000 } } ]

/-- Shared state store held by the context provider
(`candidates, roles, matches, offers, loading, error, useFallbackData`). -/
structure AppState where
  candidates : List Candidate
  roles : List Role
  «matches» : List Match
  offers : List Offer
  loading : Bool
  error : Option String
  useFallbackData : Bool
  deriving Repr, DecidableEq

/-- Value a guarded fetch leaves in its local variable: the payload on
success, the initial `[]` when the per-call `catch` swallowed a throw. -/
def fetchData {α : Type} (r : FetchResult α) : List α :=
  match r with
  | .ok data => data
  | .error _ => []

/-- Per-fetch `catch` effect on the pending error state: when the thrown
error carries a `userMessage`, the code runs
`setError(prev => prev || err.userMessage)`, keeping an earlier message
if one is pending. -/
def recordFetchError {α : Type} (pending : Option String) (r : FetchResult α) :
    Option String :=
  match r with
  | .ok _ => pending
  | .error e =>
    match e.userMessage with
    | some m => match pending with
      | some p => some p
      | none => some m
    | none => pending

/-- Pending value of the error slot after the four guarded fetches have
run (the first specific `userMessage` captured, if any). -/
def capturedFetchError (rc : FetchResult Candidate) (rr : FetchResult Role)
    (rm : FetchResult Match) (ro : FetchResult Offer) : Option String :=
  recordFetchError (recordFetchError (recordFetchError
    (recordFetchError none rc) rr) rm) ro

/-- Generic notice written by the fallback branch of the bootstrap. -/
def demoNotice : String :=
  "Unable to connect to the backend. Using demo mode with sample data."

/-- Bootstrap of the shared state store (`fetchInitialData` in
AppContext.jsx) as a function of the four fetch outcomes. Each fetch is
individually guarded; `hasData` checks whether any collection came back
non-empty; the `!hasData` branch installs the mock collections, sets the
fallback flag, and runs `if (!error) setError(demoNotice)` where `error`
is the closure's render-time value — `none`, since the effect closure
was created on the initial render — so the unconditional, non-functional
`setError(demoNotice)` replaces whatever message is pending. The outer
`catch` of the source is unreachable in this model because no statement
outside the per-call guards can throw. -/
def fetchInitialData (rc : FetchResult Candidate) (rr : FetchResult Role)
    (rm : FetchResult Match) (ro : FetchResult Offer) : AppState :=
  let renderError : Option String := none
  let pendingError := capturedFetchError rc rr rm ro
  let candidatesData := fetchData rc
  let rolesData := fetchData rr
  let matchesData := fetchData rm
  let offersData := fetchData ro
  let hasData := !candidatesData.isEmpty || !rolesData.isEmpty ||
                 !matchesData.isEmpty || !offersData.isEmpty
  if !hasData then
    { candidates := mockCandidates, roles := mockRoles,
      «matches» := mockMatches, offers := mockOffers,
      loading := false,
      error := if renderError.isNone then some demoNotice else pendingError,
      useFallbackData := true }
  else
    { candidates := candidatesData, roles := rolesData,
      «matches» := matchesData, offers := offersData,
      loading := false, error := pendingError, useFallbackData := false }

/-- Outcome of a mutation-coordinator operation on the offers
collection: the resulting store collection plus either the returned
message/body or the re-thrown error. -/
inductive MutationOutcome where
  | ok (offers : List Offer) (body : String)
  | thrown (offers : List Offer) (err : FetchErr)
  deriving Repr, DecidableEq

/-- Local per-element replacement both branches of `approveOffer` use:
`offers.map(offer => offer._id === offerId ? { ...offer, status: 'Approved' } : offer)`. -/
def approveLocally (offers : List Offer) (offerId : String) : List Offer :=
  offers.map fun offer =>
    if offer._id == offerId then { offer with status := "Approved" } else offer

/-- Context `approveOffer(offerId)`: the fallback branch performs the
local replacement and returns a simulated-success message with no
network call; the live branch awaits the gateway `approve` call
(`server` is its outcome), and on success performs the same local
replacement regardless of the returned body; on failure it records the
error message and re-throws, leaving the collection untouched. -/
def approveOffer (useFallbackData : Bool) (server : Except FetchErr String)
    (offers : List Offer) (offerId : String) : MutationOutcome :=
  if useFallbackData then
    .ok (approveLocally offers offerId) "Simulated offer approval in demo mode"
  else
    match server with
    | .ok body => .ok (approveLocally offers offerId) body
    | .error e => .thrown offers e

/-- Patch shape sent by the offer edit dialog:
`{ offer: {...}, status: 'Modified' }`. -/
structure OfferPatch where
  offer : OfferPackage
  status : String
  deriving Repr, DecidableEq

/-- Patch built by `handleSaveEdit` in OfferRecommendation.jsx:
`newTotalCTC = parseInt(editedOffer.base_salary) + parseInt(editedOffer.bonus || 0)`,
then `{ offer: { ...editedOffer, total_ctc: newTotalCTC }, status: 'Modified' }`.
The edited fields come from numeric inputs, so `parseInt` yields the
entered natural number; an absent bonus is defaulted to 0 by `|| 0`. -/
def mkUpdatedOfferData (editedOffer : OfferPackage) : OfferPatch :=
  { offer := { editedOffer with
      total_ctc := editedOffer.base_salary + editedOffer.bonus.getD 0 },
    status := "Modified" }

/-- Fallback branch of context `updateOffer(offerId, offerData)`:
`offers.map(offer => offer._id === offerId ? { ...offer, ...offerData, status: 'Modified' } : offer)`.
Spreading `offerData` overwrites the nested package and status, and the
trailing literal forces `status = 'Modified'`. -/
def updateOfferFallback (offers : List Offer) (offerId : String)
    (offerData : OfferPatch) : MutationOutcome :=
  .ok (offers.map fun offer =>
        if offer._id == offerId then
          { offer with offer := offerData.offer, status := "Modified" }
        else offer)
      "Simulated offer update in demo mode"

/-- Live branch of context `updateOffer`: on success the matching offer
is replaced wholesale by the server's returned representation; on
failure the error is re-thrown and the collection is untouched. -/
def updateOfferLive (server : Except FetchErr Offer) (offers : List Offer)
    (offerId : String) : MutationOutcome :=
  match server with
  | .ok response =>
    .ok (offers.map fun offer => if offer._id == offerId then response else offer)
       "updated"
  | .error e => .thrown offers e

/-- Context `refreshRoles()`: in fallback mode it returns the mock roles
without touching the store; in live mode it replaces the store collection
with a fresh `getRoles()` result, or records the error and re-throws.
The result pairs the store collection after the call with the returned
or thrown value. -/
def refreshRoles (useFallbackData : Bool) (server : Except FetchErr (List Role))
    (storeRoles : List Role) : List Role × Except FetchErr (List Role) :=
  if useFallbackData then
    (storeRoles, .ok mockRoles)
  else
    match server with
    | .ok data => (data, .ok data)
    | .error e => (storeRoles, .error e)

/-- Outcome of the role-management submit handler: the store roles
collection afterwards, how many gateway calls were issued, and whether
the success notification was shown. -/
structure SubmitOutcome where
  roles : List Role
  networkCalls : Nat
  success : Bool
  deriving Repr, DecidableEq

/-- Add-mode `handleSubmit` of RoleManagement.jsx. The page calls
`roleService.createRole(roleData)` directly — the shared store exposes
no fallback-aware role mutation — so a gateway call is issued even in
fallback mode; it then awaits `refreshRoles()` from the context, whose
fallback branch returns the mock roles without writing the store. Any
throw is caught and reported as an error notification. -/
def handleSubmitAdd (useFallbackData : Bool) (createResp : Except FetchErr Role)
    (listResp : Except FetchErr (List Role)) (storeRoles : List Role)
    (_roleData : Role) : SubmitOutcome :=
  match createResp with
  | .error _ => { roles := storeRoles, networkCalls := 1, success := false }
  | .ok _ =>
    match refreshRoles useFallbackData listResp storeRoles with
    | (newRoles, .ok _) => { roles := newRoles, networkCalls := 1, success := true }
    | (newRoles, .error _) => { roles := newRoles, networkCalls := 1, success := false }

/-- Modelled from the spec: the backend handler of `DELETE /roles/{id}`
is not part of the client source (only its caller `roleService.deleteRole`
is); per the spec, role deletion is logical — the handler flips the
role's `is_active` flag to false and never physically removes the role
from the collection. -/
def backendDeleteRole (db : List Role) (id : String) : List Role :=
  db.map fun r => if r._id == id then { r with is_active := false } else r

/-- Modelled from the spec: the backend handler of `GET /roles/{id}`
resolves a role by identifier irrespective of its active flag ("remains
addressable by identifier for historical Matches/Offers"). -/
def backendGetRole (db : List Role) (id : String) : Option Role :=
  db.find? fun r => r._id == id

/-- Screens `AppContent` in App.jsx can render. -/
inductive Screen where
  | loadingScreen
  | errorScreen (message : String)
  | mainApp
  deriving Repr, DecidableEq

/-- Render logic of `AppContent`: the loading screen while `loading`,
the hard failure screen (`ErrorScreen`, "Something went wrong") whenever
`error` is non-null, otherwise the routed application. -/
def AppContent (loading : Bool) (error : Option String) : Screen :=
  if loading then .loadingScreen
  else
    match error with
    | some m => .errorScreen m
    | none => .mainApp

/-- Spec's error taxonomy, one constructor per branch of the response
interceptor's switch. -/
inductive ErrorClass where
  | badRequest
  | unauthorized
  | forbidden
  | notFound
  | serverError
  | networkTimeout
  | networkUnreachable
  | unknown
  deriving Repr, DecidableEq

/-- Transport-level error the interceptor receives: an HTTP response
(status and optional `data.detail`), or a request that got no response
(with the transport `code`), or neither. -/
structure AxiosError where
  response : Option (Nat × Option String)
  request : Bool
  code : Option String
  deriving Repr, DecidableEq

/-- User-facing message computed by the response interceptor in
services/api.js (`apiClient.interceptors.response`); `detail` is read as
`error.response.data?.detail || ''` and the empty string selects each
branch's default text. -/
def interceptorMessage (e : AxiosError) : String :=
  match e.response with
  | some (status, detail) =>
    let d := detail.getD ""
    match status with
    | 400 => "Bad Request: " ++ d
    | 401 => "Unauthorized: Please log in again"
    | 403 => "Forbidden: You do not have permission"
    | 404 => "Not Found: " ++ (if d = "" then "The requested resource was not found" else d)
    | 500 => "Server Error: " ++ (if d = "" then "Internal server error" else d)
    | s => "Error " ++ toString s ++ ": " ++ (if d = "" then "Something went wrong" else d)
  | none =>
    if e.request then
      if e.code = some "ECONNABORTED" then "Request timed out. Please try again."
      else if e.code = some "ERR_NETWORK" then
        "Network error. Please check if the backend server is running on http://localhost:8000"
      else "Network error. Please check your connection."
    else "An unexpected error occurred"

/-- Classification of an interceptor error under the spec's taxonomy:
HTTP statuses map 1:1 by switch branch, a missing response maps to
`NetworkTimeout` for the timeout code and `NetworkUnreachable` for any
other code, anything else to `Unknown`. -/
def classifyError (e : AxiosError) : ErrorClass :=
  match e.response with
  | some (status, _) =>
    match status with
    | 400 => .badRequest
    | 401 => .unauthorized
    | 403 => .forbidden
    | 404 => .notFound
    | 500 => .serverError
    | _ => .unknown
  | none =>
    if e.request then
      if e.code = some "ECONNABORTED" then .networkTimeout else .networkUnreachable
    else .unknown

/-- Store collection carried by a mutation outcome, whether the
operation returned or re-threw. -/
def mutationOffers : MutationOutcome → List Offer
  | .ok offers _ => offers
  | .thrown offers _ => offers

/-- Mapping with an identifier-guarded replacement leaves a list
untouched when no element satisfies the guard. -/
theorem map_if_eq_self {α : Type} (p : α → Bool) (f : α → α) :
    ∀ l : List α, (∀ x ∈ l, p x = false) →
      (l.map fun x => if p x then f x else x) = l := by
  intro l h
  induction l with
  | nil => rfl
  | cons a t ih =>
    have ha := h a (List.mem_cons_self a t)
    have ht := ih fun x hx => h x (List.mem_cons_of_mem a hx)
    simp [List.map_cons, ha, ht]

/-- Mapping with an identifier-guarded replacement is idempotent when
the replacement preserves the guard and is itself idempotent on guarded
elements. -/
theorem map_if_idem {α : Type} (p : α → Bool) (f : α → α)
    (hp : ∀ x, p x = true → p (f x) = true)
    (hf : ∀ x, p x = true → f (f x) = f x) :
    ∀ l : List α,
      ((l.map fun x => if p x then f x else x).map fun x => if p x then f x else x)
        = l.map fun x => if p x then f x else x := by
  intro l
  induction l with
  | nil => rfl
  | cons a t ih =>
    by_cases h : p a = true
    · simp [List.map_cons, h, hp a h, hf a h, ih]
    · have h' : p a = false := by revert h; cases p a <;> simp
      simp [List.map_cons, h', ih]

/-- Forcing a status that an offer already carries is the identity. -/
theorem Offer.set_status_eq_self (o : Offer) (h : o.status = "Approved") :
    { o with status := "Approved" } = o := by
  cases o
  simp_all

/-- C1. If all four bootstrap fetches fail or return empty collections,
the resulting state has `useFallbackData = true` and each of the four
collections equals the corresponding fixed mock fallback dataset
exactly. -/
theorem bootstrap_total_failure_uses_fallback
    (rc : FetchResult Candidate) (rr : FetchResult Role)
    (rm : FetchResult Match) (ro : FetchResult Offer)
    (hc : fetchData rc = []) (hr : fetchData rr = [])
    (hm : fetchData rm = []) (ho : fetchData ro = []) :
    (fetchInitialData rc rr rm ro).useFallbackData = true ∧
    (fetchInitialData rc rr rm ro).candidates = mockCandidates ∧
    (fetchInitialData rc rr rm ro).roles = mockRoles ∧
    (fetchInitialData rc rr rm ro).«matches» = mockMatches ∧
    (fetchInitialData rc rr rm ro).offers = mockOffers := by
  simp [fetchInitialData, hc, hr, hm, ho]

/-- Witness for C1: all four fetches throwing errors without a message
drives the store into fallback mode with the mock collections. -/
theorem bootstrap_total_failure_uses_fallback_witness :
    (fetchInitialData (.error ⟨none⟩) (.error ⟨none⟩) (.error ⟨none⟩)
        (.error ⟨none⟩)).useFallbackData = true ∧
    (fetchInitialData (.error ⟨none⟩) (.error ⟨none⟩) (.error ⟨none⟩)
        (.error ⟨none⟩)).candidates = mockCandidates ∧
    (fetchInitialData (.error ⟨none⟩) (.error ⟨none⟩) (.error ⟨none⟩)
        (.error ⟨none⟩)).roles = mockRoles ∧
    (fetchInitialData (.error ⟨none⟩) (.error ⟨none⟩) (.error ⟨none⟩)
        (.error ⟨none⟩)).«matches» = mockMatches ∧
    (fetchInitialData (.error ⟨none⟩) (.error ⟨none⟩) (.error ⟨none⟩)
        (.error ⟨none⟩)).offers = mockOffers :=
  bootstrap_total_failure_uses_fallback _ _ _ _ rfl rfl rfl rfl

/-- Counting helper over the four bootstrap emptiness flags. -/
theorem four_flags_count (a b c d : Bool)
    (h : ([!a, !b, !c, !d].count true) = 1) :
    ((!a || !b || !c || !d) = true) ∧ ([a, b, c, d].count true) = 3 := by
  revert h
  cases a <;> cases b <;> cases c <;> cases d <;> decide

/-- C2. If exactly one of the four bootstrap fetches succeeds with
non-empty data and the other three fail or return empty,
`useFallbackData` is false, each collection holds exactly what was
fetched (failures defaulting to the empty list, with no mock
substitution), and the other three collections are empty. -/
theorem bootstrap_single_success_no_fallback
    (rc : FetchResult Candidate) (rr : FetchResult Role)
    (rm : FetchResult Match) (ro : FetchResult Offer)
    (h : ([!(fetchData rc).isEmpty, !(fetchData rr).isEmpty,
           !(fetchData rm).isEmpty, !(fetchData ro).isEmpty].count true) = 1) :
    (fetchInitialData rc rr rm ro).useFallbackData = false ∧
    (fetchInitialData rc rr rm ro).candidates = fetchData rc ∧
    (fetchInitialData rc rr rm ro).roles = fetchData rr ∧
    (fetchInitialData rc rr rm ro).«matches» = fetchData rm ∧
    (fetchInitialData rc rr rm ro).offers = fetchData ro ∧
    ([(fetchInitialData rc rr rm ro).candidates.isEmpty,
      (fetchInitialData rc rr rm ro).roles.isEmpty,
      (fetchInitialData rc rr rm ro).«matches».isEmpty,
      (fetchInitialData rc rr rm ro).offers.isEmpty].count true) = 3 := by
  obtain ⟨hany, hcount⟩ := four_flags_count _ _ _ _ h
  have hstate : fetchInitialData rc rr rm ro =
      { candidates := fetchData rc, roles := fetchData rr,
        «matches» := fetchData rm, offers := fetchData ro,
        loading := false, error := capturedFetchError rc rr rm ro,
        useFallbackData := false } := by
    simp [fetchInitialData, hany]
  rw [hstate]
  exact ⟨rfl, rfl, rfl, rfl, rfl, hcount⟩

/-- Witness for C2: only the candidates fetch returns data; the store
keeps the other three collections empty and stays out of fallback
mode. -/
theorem bootstrap_single_success_no_fallback_witness :
    (fetchInitialData
        (.ok [{ _id := "c1", name := "A", email := "a@x", skills := [],
                experience := "" }])
        (.ok []) (.ok []) (.ok [])).useFallbackData = false ∧
    (fetchInitialData
        (.ok [{ _id := "c1", name := "A", email := "a@x", skills := [],
                experience := "" }])
        (.ok []) (.ok []) (.ok [])).roles = [] ∧
    (fetchInitialData
        (.ok [{ _id := "c1", name := "A", email := "a@x", skills := [],
                experience := "" }])
        (.ok []) (.ok []) (.ok [])).«matches» = [] ∧
    (fetchInitialData
        (.ok [{ _id := "c1", name := "A", email := "a@x", skills := [],
                experience := "" }])
        (.ok []) (.ok []) (.ok [])).offers = [] := by
  have h := bootstrap_single_success_no_fallback
    (.ok [{ _id := "c1", name := "A", email := "a@x", skills := [],
            experience := "" }])
    (.ok []) (.ok []) (.ok []) (by decide)
  exact ⟨h.1, h.2.2.1, h.2.2.2.1, h.2.2.2.2.1⟩

/-- C3. For every edited (base_salary, bonus) pair, the patch that
`handleSaveEdit` sends carries `total_ctc = base_salary + bonus` and
`status = 'Modified'`; applying it through the fallback branch of
`updateOffer` gives every matching offer exactly that total and status
(so the invariant `total_ctc = base_salary + bonus` is re-established,
never set independently of the sum), and applying the same patch twice
yields the same collection — hence the same total — as applying it
once. -/
theorem updateOffer_total_ctc_invariant
    (editedOffer : OfferPackage) (offers : List Offer) (offerId : String) :
    (mkUpdatedOfferData editedOffer).offer.total_ctc
        = editedOffer.base_salary + editedOffer.bonus.getD 0 ∧
    (mkUpdatedOfferData editedOffer).status = "Modified" ∧
    (∀ o ∈ mutationOffers
        (updateOfferFallback offers offerId (mkUpdatedOfferData editedOffer)),
      o._id = offerId →
        o.offer.total_ctc = editedOffer.base_salary + editedOffer.bonus.getD 0 ∧
        o.status = "Modified") ∧
    mutationOffers (updateOfferFallback
        (mutationOffers (updateOfferFallback offers offerId
          (mkUpdatedOfferData editedOffer)))
        offerId (mkUpdatedOfferData editedOffer))
      = mutationOffers (updateOfferFallback offers offerId
          (mkUpdatedOfferData editedOffer)) := by
  refine ⟨rfl, rfl, ?_, ?_⟩
  · intro o ho hid
    simp only [updateOfferFallback, mutationOffers, List.mem_map] at ho
    obtain ⟨x, _, rfl⟩ := ho
    by_cases hx : (x._id == offerId) = true
    · exact ⟨by rw [if_pos hx]; rfl, by rw [if_pos hx]⟩
    · exfalso
      simp only [if_neg hx] at hid
      exact hx (by simp [hid])
  · simp only [updateOfferFallback, mutationOffers]
    exact map_if_idem (fun o => o._id == offerId)
      (fun o => { o with offer := (mkUpdatedOfferData editedOffer).offer,
                         status := "Modified" })
      (fun x hx => hx) (fun x _ => rfl) offers

/-- Witness for C3: editing the mock offer to base 120000 and bonus
5000 yields total 125000 with status Modified, idempotently. -/
theorem updateOffer_total_ctc_invariant_witness :
    (mkUpdatedOfferData
        { base_salary := 120000, bonus := some 5000, equity := "1%",
          total_ctc := 110000 }).offer.total_ctc = 120000 + 5000 ∧
    (mkUpdatedOfferData
        { base_salary := 120000, bonus := some 5000, equity := "1%",
          total_ctc := 110000 }).status = "Modified" ∧
    mutationOffers (updateOfferFallback
        (mutationOffers (updateOfferFallback mockOffers "mock1"
          (mkUpdatedOfferData
            { base_salary := 120000, bonus := some 5000, equity := "1%",
              total_ctc := 110000 })))
        "mock1" (mkUpdatedOfferData
            { base_salary := 120000, bonus := some 5000, equity := "1%",
              total_ctc := 110000 }))
      = mutationOffers (updateOfferFallback mockOffers "mock1"
          (mkUpdatedOfferData
            { base_salary := 120000, bonus := some 5000, equity := "1%",
              total_ctc := 110000 })) := by
  have h := updateOffer_total_ctc_invariant
    { base_salary := 120000, bonus := some 5000, equity := "1%",
      total_ctc := 110000 } mockOffers "mock1"
  exact ⟨h.1, h.2.1, h.2.2.2⟩

/-- C6. `approveOffer` never inspects the server's body: whenever the
gateway call succeeds (and always in fallback mode) it returns without
throwing and replaces the collection with the local per-element
status update; every matching offer ends with status `Approved`; the
local update is idempotent; and on a collection whose matching offer is
already `Approved` it is the identity, so re-approving leaves the
status `Approved` and does not throw. -/
theorem approveOffer_idempotent
    (useFallbackData : Bool) (server : Except FetchErr String)
    (offers : List Offer) (offerId : String)
    (h : useFallbackData = true ∨ ∃ body, server = .ok body) :
    (∃ body, approveOffer useFallbackData server offers offerId
        = .ok (approveLocally offers offerId) body) ∧
    (∀ o ∈ approveLocally offers offerId, o._id = offerId →
        o.status = "Approved") ∧
    approveLocally (approveLocally offers offerId) offerId
        = approveLocally offers offerId ∧
    ((∀ o ∈ offers, o._id = offerId → o.status = "Approved") →
        approveLocally offers offerId = offers) := by
  refine ⟨?_, ?_, ?_, ?_⟩
  · rcases h with hf | ⟨body, hs⟩
    · exact ⟨"Simulated offer approval in demo mode", by simp [approveOffer, hf]⟩
    · cases useFallbackData
      · exact ⟨body, by simp [approveOffer, hs]⟩
      · exact ⟨"Simulated offer approval in demo mode", by simp [approveOffer]⟩
  · intro o ho hid
    simp only [approveLocally, List.mem_map] at ho
    obtain ⟨x, _, rfl⟩ := ho
    by_cases hx : (x._id == offerId) = true
    · rw [if_pos hx]
    · exfalso
      simp only [if_neg hx] at hid
      exact hx (by simp [hid])
  · exact map_if_idem (fun o => o._id == offerId)
      (fun o => { o with status := "Approved" })
      (fun x hx => hx) (fun x _ => rfl) offers
  · intro happ
    have helem : ∀ x ∈ offers,
        (if x._id == offerId then { x with status := "Approved" } else x)
          = id x := by
      intro x hx
      by_cases hid : (x._id == offerId) = true
      · rw [if_pos hid]
        exact Offer.set_status_eq_self x (happ x hx (by simpa using hid))
      · rw [if_neg hid]
        rfl
    rw [approveLocally]
    rw [List.map_congr_left helem]
    exact List.map_id offers

/-- Witness for C6: re-approving the already-approved mock offer in
fallback mode returns a simulated success and leaves the collection
unchanged. -/
theorem approveOffer_idempotent_witness :
    (∃ body, approveOffer true (.error ⟨none⟩)
        [{ _id := "mock1", candidate_id := "mock1", role_id := "mock1",
           match_score := 85, status := "Approved",
           offer := { base_salary := 100000, bonus := some 10000,
                      equity := "1%", total_ctc := 110000 } }] "mock1"
        = .ok (approveLocally
            [{ _id := "mock1", candidate_id := "mock1", role_id := "mock1",
               match_score := 85, status := "Approved",
               offer := { base_salary := 100000, bonus := some 10000,
                          equity := "1%", total_ctc := 110000 } }] "mock1")
            body) ∧
    approveLocally
        [{ _id := "mock1", candidate_id := "mock1", role_id := "mock1",
           match_score := 85, status := "Approved",
           offer := { base_salary := 100000, bonus := some 10000,
                      equity := "1%", total_ctc := 110000 } }] "mock1"
      = [{ _id := "mock1", candidate_id := "mock1", role_id := "mock1",
           match_score := 85, status := "Approved",
           offer := { base_salary := 100000, bonus := some 10000,
                      equity := "1%", total_ctc := 110000 } }] := by
  have h := approveOffer_idempotent true (.error ⟨none⟩)
    [{ _id := "mock1", candidate_id := "mock1", role_id := "mock1",
       match_score := 85, status := "Approved",
       offer := { base_salary := 100000, bonus := some 10000,
                  equity := "1%", total_ctc := 110000 } }] "mock1"
    (Or.inl rfl)
  exact ⟨h.1, h.2.2.2 (by decide)⟩

/-- C10. In fallback mode, `approveOffer` and `updateOffer` called with
an identifier matching no offer return the simulated success result
without throwing and leave every offer unchanged (the per-element
replacement is a no-op), for any server outcome and any patch. -/
theorem fallback_mutations_unknown_id_noop
    (offers : List Offer) (offerId : String) (patch : OfferPatch)
    (h : ∀ o ∈ offers, o._id ≠ offerId) :
    (∀ server : Except FetchErr String,
      approveOffer true server offers offerId
        = .ok offers "Simulated offer approval in demo mode") ∧
    updateOfferFallback offers offerId patch
        = .ok offers "Simulated offer update in demo mode" := by
  have hfalse : ∀ o ∈ offers, (o._id == offerId) = false := by
    intro o ho
    simpa using h o ho
  have hmap : approveLocally offers offerId = offers := by
    rw [approveLocally]
    exact map_if_eq_self _ _ offers hfalse
  constructor
  · intro server
    simp [approveOffer, hmap]
  · simp only [updateOfferFallback]
    rw [map_if_eq_self _ _ offers hfalse]

/-- Witness for C10: approving or updating the unknown identifier
`missing` in fallback mode leaves the mock offers untouched. -/
theorem fallback_mutations_unknown_id_noop_witness :
    approveOffer true (.error ⟨none⟩) mockOffers "missing"
        = .ok mockOffers "Simulated offer approval in demo mode" ∧
    updateOfferFallback mockOffers "missing"
        { offer := { base_salary := 1, bonus := none, total_ctc := 1 },
          status := "Modified" }
        = .ok mockOffers "Simulated offer update in demo mode" := by
  have h := fallback_mutations_unknown_id_noop mockOffers "missing"
    { offer := { base_salary := 1, bonus := none, total_ctc := 1 },
      status := "Modified" }
    (by decide)
  exact ⟨h.1 (.error ⟨none⟩), h.2⟩

/-- C4. When bootstrap ends in total failure and fallback mode is
entered, the error slot is non-null (the demo-mode notice), so
`AppContent` renders the hard failure `ErrorScreen` — not the running
application with a demo-mode notice as the spec claims. -/
theorem total_failure_renders_error_screen :
    (fetchInitialData (.error ⟨none⟩) (.error ⟨none⟩) (.error ⟨none⟩)
        (.error ⟨none⟩)).useFallbackData = true ∧
    (fetchInitialData (.error ⟨none⟩) (.error ⟨none⟩) (.error ⟨none⟩)
        (.error ⟨none⟩)).loading = false ∧
    (fetchInitialData (.error ⟨none⟩) (.error ⟨none⟩) (.error ⟨none⟩)
        (.error ⟨none⟩)).error = some demoNotice ∧
    AppContent
        (fetchInitialData (.error ⟨none⟩) (.error ⟨none⟩) (.error ⟨none⟩)
          (.error ⟨none⟩)).loading
        (fetchInitialData (.error ⟨none⟩) (.error ⟨none⟩) (.error ⟨none⟩)
          (.error ⟨none⟩)).error
      = .errorScreen demoNotice ∧
    AppContent
        (fetchInitialData (.error ⟨none⟩) (.error ⟨none⟩) (.error ⟨none⟩)
          (.error ⟨none⟩)).loading
        (fetchInitialData (.error ⟨none⟩) (.error ⟨none⟩) (.error ⟨none⟩)
          (.error ⟨none⟩)).error
      ≠ .mainApp := by
  refine ⟨rfl, rfl, rfl, rfl, ?_⟩
  decide

/-- C5. When a fetch failure has already captured a specific
user-facing message, the fallback branch of the bootstrap still
overwrites it with the generic demo-mode notice: the
`if (!error)` guard reads the stale render-time value of `error`
(null), so the unconditional `setError` replaces the pending specific
message. -/
theorem specific_error_replaced_by_demo_notice :
    capturedFetchError (.error ⟨some "Not Found: role not found"⟩)
        (.ok []) (.ok []) (.ok [])
      = some "Not Found: role not found" ∧
    (fetchInitialData (.error ⟨some "Not Found: role not found"⟩)
        (.ok []) (.ok []) (.ok [])).useFallbackData = true ∧
    (fetchInitialData (.error ⟨some "Not Found: role not found"⟩)
        (.ok []) (.ok []) (.ok [])).error = some demoNotice ∧
    demoNotice ≠ "Not Found: role not found" := by
  refine ⟨rfl, rfl, rfl, ?_⟩
  decide

/-- C7. Deleting a role is soft: the backend (modelled from the spec)
keeps the identifier in the roles collection in place, flips only the
matching role's `is_active` flag to false — everything else, and every
other role, is untouched — and any pre-existing Match or Offer
referencing the identifier still resolves it afterwards. -/
theorem deleteRole_soft
    (db : List Role) (id : String) (h : ∃ r ∈ db, r._id = id) :
    (backendDeleteRole db id).map Role._id = db.map Role._id ∧
    (∀ r ∈ backendDeleteRole db id, r._id = id → r.is_active = false) ∧
    (∀ r ∈ db, r._id ≠ id → r ∈ backendDeleteRole db id) ∧
    (∀ r ∈ db, r._id = id →
        { r with is_active := false } ∈ backendDeleteRole db id) ∧
    (∀ m : Match, m.role_id = id →
        (backendGetRole (backendDeleteRole db id) m.role_id).isSome) ∧
    (∀ o : Offer, o.role_id = id →
        (backendGetRole (backendDeleteRole db id) o.role_id).isSome) := by
  have hmem_pos : ∀ r ∈ db, r._id = id →
      { r with is_active := false } ∈ backendDeleteRole db id := by
    intro r hr hid
    rw [backendDeleteRole]
    have hfun : (fun x : Role =>
        if x._id == id then { x with is_active := false } else x) r
          = { r with is_active := false } := by
      simp only
      rw [if_pos (by simp [hid] : (r._id == id) = true)]
    exact hfun ▸ List.mem_map_of_mem _ hr
  have hsome : (backendGetRole (backendDeleteRole db id) id).isSome := by
    obtain ⟨r, hr, hid⟩ := h
    rw [backendGetRole, List.find?_isSome]
    exact ⟨{ r with is_active := false }, hmem_pos r hr hid, by simp [hid]⟩
  refine ⟨?_, ?_, ?_, hmem_pos, ?_, ?_⟩
  · rw [backendDeleteRole, List.map_map]
    apply List.map_congr_left
    intro r _
    show (if r._id == id then { r with is_active := false } else r)._id = r._id
    by_cases hid : (r._id == id) = true
    · rw [if_pos hid]
    · rw [if_neg hid]
  · intro r hr hid
    simp only [backendDeleteRole, List.mem_map] at hr
    obtain ⟨x, _, rfl⟩ := hr
    by_cases hx : (x._id == id) = true
    · rw [if_pos hx]
    · exfalso
      simp only [if_neg hx] at hid
      exact hx (by simp [hid])
  · intro r hr hid
    rw [backendDeleteRole]
    have hfun : (fun x : Role =>
        if x._id == id then { x with is_active := false } else x) r = r := by
      simp only
      rw [if_neg (by simpa using hid : ¬ (r._id == id) = true)]
    exact hfun ▸ List.mem_map_of_mem _ hr
  · intro m hm
    rw [hm]
    exact hsome
  · intro o ho
    rw [ho]
    exact hsome

/-- Witness for C7: soft-deleting the mock role `mock1` keeps its
identifier in the collection and the mock match referencing it still
resolves its role. -/
theorem deleteRole_soft_witness :
    (backendDeleteRole mockRoles "mock1").map Role._id
        = mockRoles.map Role._id ∧
    (backendGetRole (backendDeleteRole mockRoles "mock1") "mock1").isSome := by
  have h := deleteRole_soft mockRoles "mock1" (by decide)
  exact ⟨h.1,
    h.2.2.2.2.1 { _id := "mock1", candidate_id := "mock1",
                  role_id := "mock1", match_score := 85,
                  status := "Matched" } rfl⟩

/-- C8 counterexample. In fallback mode with roles
`[{_id := "mock1", required_skills := ["React"]}]`, submitting a new
role `{title := "X", required_skills := ["X"]}` does not append
anything: the page calls the role service over the network (one
gateway call, which fails when the backend is unreachable) and the
store's roles collection is unchanged, so the claimed
"appends a new role without any network call" behavior is false. -/
theorem createRole_fallback_counterexample :
    (handleSubmitAdd true
        (.error ⟨some "Network error. Please check your connection."⟩)
        (.ok [])
        [{ _id := "mock1", title := "", required_skills := ["React"] }]
        { _id := "", title := "X", required_skills := ["X"] }).roles
      = [{ _id := "mock1", title := "", required_skills := ["React"] }] ∧
    (handleSubmitAdd true
        (.error ⟨some "Network error. Please check your connection."⟩)
        (.ok [])
        [{ _id := "mock1", title := "", required_skills := ["React"] }]
        { _id := "", title := "X", required_skills := ["X"] }).networkCalls
      = 1 ∧
    ¬ ((handleSubmitAdd true
        (.error ⟨some "Network error. Please check your connection."⟩)
        (.ok [])
        [{ _id := "mock1", title := "", required_skills := ["React"] }]
        { _id := "", title := "X", required_skills := ["X"] }).roles.length = 2 ∧
       (handleSubmitAdd true
        (.error ⟨some "Network error. Please check your connection."⟩)
        (.ok [])
        [{ _id := "mock1", title := "", required_skills := ["React"] }]
        { _id := "", title := "X", required_skills := ["X"] }).networkCalls = 0) := by
  refine ⟨rfl, rfl, ?_⟩
  decide

/-- C8 amended. In fallback mode, submitting a new role always issues
exactly one gateway call (the shared store exposes no fallback-aware
`createRole`) and leaves the store's roles collection unchanged —
whatever the create call and the refresh return — so the pre-existing
role `mock1` is untouched but no new role is appended. -/
theorem createRole_fallback_no_append
    (createResp : Except FetchErr Role) (listResp : Except FetchErr (List Role))
    (storeRoles : List Role) (roleData : Role) :
    (handleSubmitAdd true createResp listResp storeRoles roleData).roles
        = storeRoles ∧
    (handleSubmitAdd true createResp listResp storeRoles roleData).networkCalls
        = 1 := by
  cases createResp with
  | error e => exact ⟨rfl, rfl⟩
  | ok r => exact ⟨rfl, rfl⟩

/-- Witness for the amended C8: the concrete fallback-mode submission
of role X over store `[mock1]` issues one gateway call and leaves the
store unchanged. -/
theorem createRole_fallback_no_append_witness :
    (handleSubmitAdd true
        (.error ⟨some "Network error. Please check your connection."⟩)
        (.ok [])
        [{ _id := "mock1", title := "", required_skills := ["React"] }]
        { _id := "", title := "X", required_skills := ["X"] }).roles
      = [{ _id := "mock1", title := "", required_skills := ["React"] }] ∧
    (handleSubmitAdd true
        (.error ⟨some "Network error. Please check your connection."⟩)
        (.ok [])
        [{ _id := "mock1", title := "", required_skills := ["React"] }]
        { _id := "", title := "X", required_skills := ["X"] }).networkCalls
      = 1 :=
  createRole_fallback_no_append
    (.error ⟨some "Network error. Please check your connection."⟩)
    (.ok [])
    [{ _id := "mock1", title := "", required_skills := ["React"] }]
    { _id := "", title := "X", required_skills := ["X"] }

/-- C9. An HTTP 404 response with body `{detail: 'role not found'}` is
classified as `NotFound` and the precomputed user-facing message
contains the detail text. -/
theorem notFound_classified_with_detail :
    classifyError { response := some (404, some "role not found"),
                    request := true, code := none } = .notFound ∧
    interceptorMessage { response := some (404, some "role not found"),
                         request := true, code := none }
      = "Not Found: " ++ "role not found" ∧
    interceptorMessage { response := some (404, some "role not found"),
                         request := true, code := none }
      = "Not Found: role not found" := by
  refine ⟨rfl, ?_, ?_⟩ <;> decide

end RoleMatcher
